import Mathlib

/-!
# Verification of the ERP_APP server core

Shallow embedding of the Express/Mongoose ERP server: the auth middleware
and error handler (`server/auth.ts`, `server/utils/errorHandler.ts`), the
zod validation layer and routes (`routes.ts`), the storage layer
(`server/storage.ts`) and the shared mongoose/zod schemas
(`shared/schema.ts`).

Conventions of the embedding:
* JSON request/response bodies are association lists of `JVal`s; JS numbers
  are modelled as `Int` (every concrete number in the claims is integral).
* A JS `Date` constructed from a string is represented by the constructor
  `JVal.jdate` carrying the source string: the code never inspects a date
  beyond constructing and storing it.
* `bcrypt` hashing/comparison and the low-level `jwt.verify` on raw token
  strings are external library collaborators; middleware theorems take them
  as function parameters.  The token *content* (payload, expiry, signing
  secret) is modelled concretely by the structure `Token` for the
  token-lifetime claims.
* `async`/`await` sequencing is collapsed: each handler is a pure function
  from its inputs (and the store state) to a result, with thrown errors as
  an `Except`/sum component.
-/

namespace ERP

/-- JSON-ish runtime values appearing in request bodies and stored
documents.  `jdate s` is the JS `Date` built by `new Date(s)`. -/
inductive JVal where
  | jstr (s : String)
  | jnum (n : Int)
  | jbool (b : Bool)
  | jnull
  | jdate (src : String)
  deriving DecidableEq, Repr

/-- A JSON object: an association list from field names to values
(first binding wins, as in JS object literals read left to right). -/
abbrev JObj : Type := List (String × JVal)

instance {ε α : Type} [DecidableEq ε] [DecidableEq α] : DecidableEq (Except ε α)
  | .ok a, .ok b => if h : a = b then .isTrue (by rw [h]) else .isFalse (by simp [h])
  | .ok _, .error _ => .isFalse (by simp)
  | .error _, .ok _ => .isFalse (by simp)
  | .error a, .error b => if h : a = b then .isTrue (by rw [h]) else .isFalse (by simp [h])

/-- Field lookup, `obj[name]`; `none` is JS `undefined`. -/
def JObj.get (o : JObj) (name : String) : Option JVal :=
  (List.find? (fun p => p.1 = name) o).map (·.2)

/-- JS runtime errors that reach the central `errorHandler`, by the
discriminators the handler actually tests: `err.name === 'CastError'`,
`err.code === 11000`, `err.name === 'ValidationError'`,
`err.name === 'JsonWebTokenError'`, `err.name === 'TokenExpiredError'`,
and operational `ApiError`s carrying their own status code. -/
inductive JsErr where
  | apiError (message : String) (statusCode : Nat)
  | castError (value : String)
  | duplicateKey
  | mongooseValidation (messages : List String)
  | jsonWebTokenError
  | tokenExpiredError
  | other (message : String)
  deriving DecidableEq, Repr

/-- The error body shape: `res.status(s).json({success: false, message})`. -/
structure ErrResponse where
  status : Nat
  success : Bool
  message : String
  deriving DecidableEq, Repr

/-- `errorHandler` from `server/utils/errorHandler.ts` (lines 16-56):
rewrites Mongoose cast/duplicate/validation errors and the two JWT error
classes to `ApiError`s, then responds with
`error.statusCode || 500` and `error.message || 'Server Error'`. -/
def errorHandler : JsErr → ErrResponse
  | .apiError message statusCode =>
      { status := statusCode, success := false, message := message }
  | .castError v =>
      { status := 404, success := false
        message := "Resource not found with id of " ++ v }
  | .duplicateKey =>
      { status := 400, success := false
        message := "Duplicate field value entered" }
  | .mongooseValidation msgs =>
      { status := 400, success := false
        message := String.intercalate ", " msgs }
  | .jsonWebTokenError =>
      { status := 401, success := false
        message := "Not authorized, token failed" }
  | .tokenExpiredError =>
      { status := 401, success := false
        message := "Not authorized, token expired" }
  | .other message =>
      { status := 500, success := false
        message := if message = "" then "Server Error" else message }

/-! ## Token service (`server/auth.ts` lines 8-14) -/

/-- `const JWT_SECRET = process.env.JWT_SECRET || 'supersecretjwtkey'`;
the argument is the environment variable (`none` when unset). -/
def JWT_SECRET (env : Option String) : String :=
  match env with
  | some s => if s = "" then "supersecretjwtkey" else s
  | none => "supersecretjwtkey"

/-- `JWT_EXPIRES_IN = '1h'`, in seconds as `jsonwebtoken` interprets it. -/
def JWT_EXPIRES_IN_SECONDS : Nat := 3600

/-- A signed JWT as produced by `jwt.sign(payload, secret, {expiresIn})`:
the claims (`userId`, issued-at `iat`, expiry `exp`, all in seconds) plus
the secret the signature was produced with.  A signature is valid exactly
when the verifying secret equals the signing secret. -/
structure Token where
  userId : String
  iat : Nat
  exp : Nat
  signedWith : String
  deriving DecidableEq, Repr

/-- `jwt.sign({userId: id}, secret, {expiresIn})` at clock time `now`. -/
def jwtSign (userId : String) (secret : String) (expiresIn : Nat) (now : Nat) : Token :=
  { userId := userId, iat := now, exp := now + expiresIn, signedWith := secret }

/-- Outcome of `jwt.verify`: the decoded payload's user id, or one of the
two error classes (`JsonWebTokenError` covers signature and format
failures, `TokenExpiredError` covers expiry). -/
inductive VerifyResult where
  | ok (userId : String)
  | jwtError
  | tokenExpired
  deriving DecidableEq, Repr

/-- `jwt.verify(token, secret)` at clock time `now`: signature is checked
first; an expired token is one whose `exp` is not in the future
(`jsonwebtoken` rejects when `clockTimestamp >= exp`). -/
def jwtVerify (t : Token) (secret : String) (now : Nat) : VerifyResult :=
  if t.signedWith ≠ secret then .jwtError
  else if t.exp ≤ now then .tokenExpired
  else .ok t.userId

/-- `generateToken` (`server/auth.ts` lines 11-14): signs `{userId}` with
the process secret, expiring in 1 hour.  `userId.toString()` is already a
`String` here. -/
def generateToken (env : Option String) (userId : String) (now : Nat) : Token :=
  jwtSign userId (JWT_SECRET env) JWT_EXPIRES_IN_SECONDS now

/-! ## Auth middleware `protect` (`server/auth.ts` lines 25-43) -/

/-- The part of an Express request `protect` reads: the
`Authorization` header (`none` when absent). -/
structure Request where
  authorization : Option String
  deriving DecidableEq, Repr

/-- Outcome of running a middleware: pass control to the next handler
(with the user id attached to the request for `protect`), or forward an
error to the error handler via `next(err)`. -/
inductive MwOutcome where
  | proceed (userId : String)
  | failed (e : JsErr)
  deriving DecidableEq, Repr

/-- Whether the first character list begins with the second
(JS `String.prototype.startsWith`). -/
def startsAux : List Char → List Char → Bool
  | _, [] => true
  | [], _ :: _ => false
  | c :: cs, d :: ds => c = d && startsAux cs ds

/-- JS `s.startsWith(pre)`. -/
def jsStartsWith (s pre : String) : Bool := startsAux s.data pre.data

/-- Splitting accumulator for `jsSplitSpace`. -/
def splitSpaceAux : List Char → List Char → List String
  | [], acc => [String.mk acc.reverse]
  | c :: cs, acc =>
      if c = ' ' then String.mk acc.reverse :: splitSpaceAux cs []
      else splitSpaceAux cs (c :: acc)

/-- JS `s.split(' ')`. -/
def jsSplitSpace (s : String) : List String := splitSpaceAux s.data []

/-- Token extraction inside `protect`:
`req.headers.authorization && req.headers.authorization.startsWith('Bearer')`
then `token = req.headers.authorization.split(' ')[1]` — which is JS
`undefined` when there is no second chunk. -/
def extractToken (req : Request) : Option String :=
  match req.authorization with
  | some h => if jsStartsWith h "Bearer" then (jsSplitSpace h).get? 1 else none
  | none => none

/-- `protect` (`server/auth.ts` lines 25-43).  The raw-string verifier
`verify` stands for `jwt.verify(·, JWT_SECRET)` with its outcome
classified by error class; `if (!token)` treats both a missing chunk and
the empty string as absent. -/
def protect (verify : String → VerifyResult) (req : Request) : MwOutcome :=
  match extractToken req with
  | none => .failed (.apiError "Not authorized, no token" 401)
  | some token =>
      if token = "" then .failed (.apiError "Not authorized, no token" 401)
      else
        match verify token with
        | .ok userId => .proceed userId
        | .jwtError => .failed .jsonWebTokenError
        | .tokenExpired => .failed .tokenExpiredError

/-- A protected route end to end: run `protect`; on success run the
downstream handler (a function of the attached user id), on failure the
error falls through to `errorHandler`.  Handlers produce an
`ErrResponse`-or-success sum; `α` is the success payload type. -/
def runProtected {α : Type} (verify : String → VerifyResult) (req : Request)
    (handler : String → ErrResponse ⊕ α) : ErrResponse ⊕ α :=
  match protect verify req with
  | .proceed userId => handler userId
  | .failed e => .inl (errorHandler e)

/-! ## Users and the register/login flows (`server/auth.ts` lines 45-117) -/

/-- A persisted `User` document (`shared/schema.ts` mongoose model):
`_id`, unique email, bcrypt-hashed password, names, role. -/
structure UserRec where
  _id : String
  email : String
  password : String
  firstName : String
  lastName : String
  profileImageUrl : String
  role : String
  deriving DecidableEq, Repr

/-- `User.findOne({ email })`: the first stored user with that email. -/
def findUserByEmail (users : List UserRec) (email : String) : Option UserRec :=
  List.find? (fun u => u.email = email) users

/-- The JSON success body both auth endpoints send:
`{id, email, firstName, lastName, role, token}`. -/
structure AuthResponse where
  id : String
  email : String
  firstName : String
  lastName : String
  role : String
  token : Token
  deriving DecidableEq, Repr

/-- Result of an auth endpoint: an error forwarded to `next`, or a JSON
response with its HTTP status.  The store of users after the call is
tracked alongside. -/
inductive AuthResult where
  | err (e : JsErr)
  | ok (status : Nat) (body : AuthResponse)
  deriving DecidableEq, Repr

/-- `registerUser` (`server/auth.ts` lines 45-80).  `hash` stands for the
bcrypt `hashPassword`; `newId` for the ObjectId mongoose assigns on
`save()`.  Returns the updated user store and the response: a duplicate
email fails with `ApiError('User already exists', 400)` leaving the store
untouched; otherwise the new user is persisted with role `'staff'` and a
201 response carries the profile and a fresh token. -/
def registerUser (hash : String → String) (env : Option String) (now : Nat)
    (newId : String) (users : List UserRec)
    (email password firstName lastName : String) :
    List UserRec × AuthResult :=
  match findUserByEmail users email with
  | some _ => (users, .err (.apiError "User already exists" 400))
  | none =>
      let newUser : UserRec :=
        { _id := newId, email := email, password := hash password
          firstName := firstName, lastName := lastName
          profileImageUrl := "", role := "staff" }
      let token := generateToken env newId now
      (users ++ [newUser],
       .ok 201
         { id := newId, email := email, firstName := firstName
           lastName := lastName, role := "staff", token := token })

/-- `loginUser` (`server/auth.ts` lines 94-117).  `cmp` stands for the
bcrypt `comparePassword`.  Unknown email and failed comparison take the
same branch: `ApiError('Invalid credentials', 400)`. -/
def loginUser (cmp : String → String → Bool) (env : Option String) (now : Nat)
    (users : List UserRec) (email password : String) : AuthResult :=
  match findUserByEmail users email with
  | none => .err (.apiError "Invalid credentials" 400)
  | some user =>
      if cmp password user.password then
        .ok 200
          { id := user._id, email := user.email, firstName := user.firstName
            lastName := user.lastName, role := user.role
            token := generateToken env user._id now }
      else .err (.apiError "Invalid credentials" 400)

/-! ## The zod validation layer (`shared/schema.ts` lines 145-183 and the
`validate` middleware in `routes.ts` lines 91-103)

A zod object schema is embedded as a list of field specifications run in
declaration order, each yielding either field-level issue messages or the
parsed (defaulted / transformed) binding.  zod collects the issues of all
fields before throwing. -/

/-- A check chained onto `z.number()`: `.positive(msg)`, `.int()` (always
satisfied in the `Int` model of JS numbers), `.min(bound, msg)`. -/
inductive NumCheck where
  | positive (msg : String)
  | intCheck (msg : String)
  | minVal (bound : Int) (msg : String)
  deriving DecidableEq, Repr

/-- Run one number check; `some msg` is a failure. -/
def runNumCheck (c : NumCheck) (n : Int) : Option String :=
  match c with
  | .positive msg => if n > 0 then none else some msg
  | .intCheck _ => none
  | .minVal bound msg => if bound ≤ n then none else some msg

/-- The base type of a zod field as used in `shared/schema.ts`:
strings (with optional min-length), emails, URLs, numbers with chained
checks, string enums, and `z.string().transform(str => new Date(str))`.
The email and URL well-formedness tests of zod are external library
internals; they are represented by the computable stand-ins below, whose
exact extension no claim depends on. -/
inductive FieldType where
  | fstr (minLen : Option (Nat × String))
  | femail (msg : String)
  | furl (msg : String)
  | fnum (checks : List NumCheck)
  | fenum (values : List String)
  | fdateStr
  deriving DecidableEq, Repr

/-- Stand-in for zod's email regex. -/
def zodEmailOk (s : String) : Bool := s.data.contains '@'

/-- Stand-in for zod's URL validity test. -/
def zodUrlOk (s : String) : Bool :=
  jsStartsWith s "http://" || jsStartsWith s "https://"

/-- One field of a zod object schema: its key, base type, whether it is
required (`.optional()` clears this), and a `.default(v)` value. -/
structure FieldSpec where
  name : String
  ftype : FieldType
  required : Bool
  dflt : Option JVal
  deriving DecidableEq, Repr

/-- The JS runtime type name of a value, as zod reports it. -/
def jsTypeName : JVal → String
  | .jstr _ => "string"
  | .jnum _ => "number"
  | .jbool _ => "boolean"
  | .jnull => "null"
  | .jdate _ => "date"

/-- zod's wrong-type issue message. -/
def typeMsg (expected : String) (got : JVal) : String :=
  "Expected " ++ expected ++ ", received " ++ jsTypeName got

/-- zod's invalid-enum-value issue message. -/
def enumMsg (values : List String) (got : JVal) : String :=
  "Invalid enum value. Expected " ++
    String.intercalate " | " (values.map (fun v => "'" ++ v ++ "'")) ++
    ", received " ++
    (match got with
     | .jstr s => "'" ++ s ++ "'"
     | v => jsTypeName v)

/-- Check a present value against a field's base type, returning the
issue messages or the parsed value (dates transformed). -/
def checkVal (t : FieldType) (v : JVal) : Except (List String) JVal :=
  match t, v with
  | .fstr minLen, .jstr s =>
      match minLen with
      | some (m, msg) => if s.length < m then .error [msg] else .ok (.jstr s)
      | none => .ok (.jstr s)
  | .fstr _, v => .error [typeMsg "string" v]
  | .femail msg, .jstr s =>
      if zodEmailOk s then .ok (.jstr s) else .error [msg]
  | .femail _, v => .error [typeMsg "string" v]
  | .furl msg, .jstr s =>
      if zodUrlOk s then .ok (.jstr s) else .error [msg]
  | .furl _, v => .error [typeMsg "string" v]
  | .fnum checks, .jnum n =>
      match checks.filterMap (fun c => runNumCheck c n) with
      | [] => .ok (.jnum n)
      | fails => .error fails
  | .fnum _, v => .error [typeMsg "number" v]
  | .fenum values, .jstr s =>
      if s ∈ values then .ok (.jstr s) else .error [enumMsg values (.jstr s)]
  | .fenum values, v => .error [enumMsg values v]
  | .fdateStr, .jstr s => .ok (.jdate s)
  | .fdateStr, v => .error [typeMsg "string" v]

/-- Parse one field of the body: a missing key takes the default if any,
is skipped when optional, and is the zod issue `Required` otherwise. -/
def parseField (f : FieldSpec) (o : JObj) : Except (List String) (List (String × JVal)) :=
  match o.get f.name with
  | none =>
      match f.dflt with
      | some v => .ok [(f.name, v)]
      | none => if f.required then .error ["Required"] else .ok []
  | some v =>
      match checkVal f.ftype v with
      | .error msgs => .error msgs
      | .ok v' => .ok [(f.name, v')]

/-- The issue messages of a list of per-field outcomes, in field order. -/
def collectErrs (rs : List (Except (List String) (List (String × JVal)))) : List String :=
  rs.foldr (fun r acc => match r with | .error m => m ++ acc | .ok _ => acc) []

/-- The parsed bindings of a list of per-field outcomes, in field order. -/
def collectBindings (rs : List (Except (List String) (List (String × JVal)))) : JObj :=
  rs.foldr (fun r acc => match r with | .ok bs => bs ++ acc | .error _ => acc) []

/-- `schema.parse(body)`: run every field, in declaration order; throw
with all collected issues when any field failed, otherwise produce the
object of parsed bindings (unknown keys stripped). -/
def zodParse (schema : List FieldSpec) (o : JObj) : Except (List String) JObj :=
  match collectErrs (schema.map (fun f => parseField f o)) with
  | [] => .ok (collectBindings (schema.map (fun f => parseField f o)))
  | e :: es => .error (e :: es)

/-- `schema.partial()`: every field becomes optional (and a missing field
is passed through rather than defaulted), values still checked when
present. -/
def zodOptionalAll (schema : List FieldSpec) : List FieldSpec :=
  schema.map (fun f => { f with required := false, dflt := none })

/-- `insertProductSchema` (`shared/schema.ts` lines 145-154). -/
def insertProductSchema : List FieldSpec :=
  [ { name := "name", ftype := .fstr (some (1, "Product name is required"))
      required := true, dflt := none }
  , { name := "description", ftype := .fstr none, required := false, dflt := none }
  , { name := "sku", ftype := .fstr (some (1, "SKU is required"))
      required := true, dflt := none }
  , { name := "category", ftype := .fstr (some (1, "Category is required"))
      required := true, dflt := none }
  , { name := "price", ftype := .fnum [.positive "Price must be a positive number"]
      required := true, dflt := none }
  , { name := "stock"
      ftype := .fnum [.intCheck "Expected integer, received float"
                     , .minVal 0 "Stock cannot be negative"]
      required := true, dflt := none }
  , { name := "status", ftype := .fenum ["active", "discontinued"]
      required := true, dflt := some (.jstr "active") }
  , { name := "imageUrl", ftype := .furl "Invalid image URL"
      required := false, dflt := none } ]

/-- `insertOrderSchema` (`shared/schema.ts` lines 156-163). -/
def insertOrderSchema : List FieldSpec :=
  [ { name := "orderNumber", ftype := .fstr (some (1, "Order number is required"))
      required := true, dflt := none }
  , { name := "customerName", ftype := .fstr (some (1, "Customer name is required"))
      required := true, dflt := none }
  , { name := "customerEmail", ftype := .femail "Invalid email address"
      required := false, dflt := none }
  , { name := "totalAmount", ftype := .fnum [.positive "Total amount must be positive"]
      required := true, dflt := none }
  , { name := "status", ftype := .fenum ["pending", "processing", "completed", "cancelled"]
      required := true, dflt := some (.jstr "pending") }
  , { name := "type", ftype := .fenum ["sale", "purchase"]
      required := true, dflt := some (.jstr "sale") } ]

/-- `insertEmployeeSchema` (`shared/schema.ts` lines 165-175). -/
def insertEmployeeSchema : List FieldSpec :=
  [ { name := "employeeId", ftype := .fstr (some (1, "Employee ID is required"))
      required := true, dflt := none }
  , { name := "firstName", ftype := .fstr (some (1, "First name is required"))
      required := true, dflt := none }
  , { name := "lastName", ftype := .fstr (some (1, "Last name is required"))
      required := true, dflt := none }
  , { name := "email", ftype := .femail "Invalid email address"
      required := true, dflt := none }
  , { name := "position", ftype := .fstr (some (1, "Position is required"))
      required := true, dflt := none }
  , { name := "department", ftype := .fstr (some (1, "Department is required"))
      required := true, dflt := none }
  , { name := "salary", ftype := .fnum [.positive "Salary must be a positive number"]
      required := false, dflt := none }
  , { name := "hireDate", ftype := .fdateStr, required := true, dflt := none }
  , { name := "status", ftype := .fenum ["active", "on_leave", "terminated"]
      required := true, dflt := some (.jstr "active") } ]

/-- `insertTransactionSchema` (`shared/schema.ts` lines 177-183). -/
def insertTransactionSchema : List FieldSpec :=
  [ { name := "description", ftype := .fstr (some (1, "Description is required"))
      required := true, dflt := none }
  , { name := "amount", ftype := .fnum [.positive "Amount must be a positive number"]
      required := true, dflt := none }
  , { name := "type", ftype := .fenum ["income", "expense", "transfer"]
      required := true, dflt := none }
  , { name := "category", ftype := .fstr (some (1, "Category is required"))
      required := true, dflt := none }
  , { name := "date", ftype := .fdateStr, required := true, dflt := none } ]

/-- Outcome of the `validate` middleware: pass the (unchanged) body on to
the next handler, or forward an error. -/
inductive ValidateOutcome where
  | next (body : JObj)
  | failed (e : JsErr)
  deriving DecidableEq, Repr

/-- The `validate` middleware (`routes.ts` lines 91-103): `schema.parse(req.body)`
for effect only — the parse result is discarded and `next()` leaves
`req.body` as it was; a `ZodError`'s issue messages are joined with
`', '` behind the prefix `Validation Error: ` into an `ApiError(·, 400)`. -/
def validate (schema : List FieldSpec) (body : JObj) : ValidateOutcome :=
  match zodParse schema body with
  | .ok _parsed => .next body
  | .error msgs =>
      .failed (.apiError ("Validation Error: " ++ String.intercalate ", " msgs) 400)

/-! ## Persisted entity documents and the storage layer
(`shared/schema.ts` mongoose schemas, `server/storage.ts`)

Stored documents are typed records; mongoose's cast of a JSON body into a
document reads the schema's fields (unknown keys are stripped under the
default strict mode) and applies the mongoose-level defaults
(`stock: 0`, `status` enum defaults).  Timestamps and sort orders play no
role in any claim and are omitted. -/

structure ProductRec where
  _id : String
  name : String
  description : Option String
  sku : String
  category : String
  price : Int
  stock : Int
  status : String
  deriving DecidableEq, Repr

structure OrderRec where
  _id : String
  orderNumber : String
  customerName : String
  customerEmail : Option String
  totalAmount : Int
  status : String
  type : String
  deriving DecidableEq, Repr

structure EmployeeRec where
  _id : String
  employeeId : String
  firstName : String
  lastName : String
  email : String
  position : String
  department : String
  salary : Option Int
  hireDate : String
  status : String
  deriving DecidableEq, Repr

structure TransactionRec where
  _id : String
  description : String
  amount : Int
  type : String
  category : String
  date : String
  deriving DecidableEq, Repr

/-- Read a string field of a body (JS `Date` strings included via
`jdate`, which mongoose receives already cast). -/
def getStr (o : JObj) (k : String) : Option String :=
  match o.get k with
  | some (.jstr s) => some s
  | some (.jdate s) => some s
  | _ => none

/-- Read a numeric field of a body. -/
def getNum (o : JObj) (k : String) : Option Int :=
  match o.get k with
  | some (.jnum n) => some n
  | _ => none

/-- `new Product(body)` / `.save()`: cast the body into a document with
mongoose's defaults; `none` when a field mongoose requires is absent or
of the wrong type (mongoose would throw a `ValidationError`). -/
def toProductRec (newId : String) (o : JObj) : Option ProductRec :=
  match getStr o "name", getStr o "sku", getStr o "category", getNum o "price" with
  | some name, some sku, some category, some price =>
      some { _id := newId, name := name, description := getStr o "description"
             sku := sku, category := category, price := price
             stock := (getNum o "stock").getD 0
             status := (getStr o "status").getD "active" }
  | _, _, _, _ => none

/-- `new Order(body)` cast, with the mongoose defaults for status/type. -/
def toOrderRec (newId : String) (o : JObj) : Option OrderRec :=
  match getStr o "orderNumber", getStr o "customerName", getNum o "totalAmount" with
  | some orderNumber, some customerName, some totalAmount =>
      some { _id := newId, orderNumber := orderNumber
             customerName := customerName
             customerEmail := getStr o "customerEmail"
             totalAmount := totalAmount
             status := (getStr o "status").getD "pending"
             type := (getStr o "type").getD "sale" }
  | _, _, _ => none

/-- `new Employee(body)` cast. -/
def toEmployeeRec (newId : String) (o : JObj) : Option EmployeeRec :=
  match getStr o "employeeId", getStr o "firstName", getStr o "lastName",
        getStr o "email", getStr o "position", getStr o "department",
        getStr o "hireDate" with
  | some employeeId, some firstName, some lastName, some email,
    some position, some department, some hireDate =>
      some { _id := newId, employeeId := employeeId, firstName := firstName
             lastName := lastName, email := email, position := position
             department := department, salary := getNum o "salary"
             hireDate := hireDate
             status := (getStr o "status").getD "active" }
  | _, _, _, _, _, _, _ => none

/-- `new Transaction(body)` cast. -/
def toTransactionRec (newId : String) (o : JObj) : Option TransactionRec :=
  match getStr o "description", getNum o "amount", getStr o "type",
        getStr o "category", getStr o "date" with
  | some description, some amount, some type', some category, some date =>
      some { _id := newId, description := description, amount := amount
             type := type', category := category, date := date }
  | _, _, _, _, _ => none

/-- `findByIdAndUpdate(id, data)` patch semantics on one product: fields
present in the body (with a castable value) replace the stored ones. -/
def applyProductPatch (r : ProductRec) (o : JObj) : ProductRec :=
  { r with
    name := (getStr o "name").getD r.name
    description := match getStr o "description" with
                   | some d => some d
                   | none => r.description
    sku := (getStr o "sku").getD r.sku
    category := (getStr o "category").getD r.category
    price := (getNum o "price").getD r.price
    stock := (getNum o "stock").getD r.stock
    status := (getStr o "status").getD r.status }

def applyOrderPatch (r : OrderRec) (o : JObj) : OrderRec :=
  { r with
    orderNumber := (getStr o "orderNumber").getD r.orderNumber
    customerName := (getStr o "customerName").getD r.customerName
    customerEmail := match getStr o "customerEmail" with
                     | some e => some e
                     | none => r.customerEmail
    totalAmount := (getNum o "totalAmount").getD r.totalAmount
    status := (getStr o "status").getD r.status
    type := (getStr o "type").getD r.type }

def applyEmployeePatch (r : EmployeeRec) (o : JObj) : EmployeeRec :=
  { r with
    employeeId := (getStr o "employeeId").getD r.employeeId
    firstName := (getStr o "firstName").getD r.firstName
    lastName := (getStr o "lastName").getD r.lastName
    email := (getStr o "email").getD r.email
    position := (getStr o "position").getD r.position
    department := (getStr o "department").getD r.department
    salary := match getNum o "salary" with
              | some n => some n
              | none => r.salary
    hireDate := (getStr o "hireDate").getD r.hireDate
    status := (getStr o "status").getD r.status }

/-- Replace the first element whose key matches `id` by its image under
`f` (Mongo's `findByIdAndUpdate`: `_id` is a unique index, one document
is updated). -/
def updateFirstBy {α : Type} (key : α → String) (id : String) (f : α → α) :
    List α → List α
  | [] => []
  | x :: xs => if key x = id then f x :: xs else x :: updateFirstBy key id f xs

/-- Remove the first element whose key matches `id`
(`findByIdAndDelete`). -/
def removeFirstBy {α : Type} (key : α → String) (id : String) :
    List α → List α
  | [] => []
  | x :: xs => if key x = id then xs else x :: removeFirstBy key id xs

/-- The document store: one collection per mongoose model. -/
structure Store where
  users : List UserRec
  products : List ProductRec
  orders : List OrderRec
  employees : List EmployeeRec
  transactions : List TransactionRec
  deriving DecidableEq, Repr

/-- The empty database. -/
def emptyStore : Store :=
  { users := [], products := [], orders := [], employees := [], transactions := [] }

/-- `DatabaseStorage.getProduct` (`server/storage.ts` lines 76-82):
`findById`, throwing `ApiError('Product not found', 404)` on a miss —
despite the `IProduct | null` signature it never resolves with `null`. -/
def getProduct (s : Store) (id : String) : Except JsErr (Option ProductRec) :=
  match s.products.find? (fun p => p._id = id) with
  | none => .error (.apiError "Product not found" 404)
  | some p => .ok (some p)

/-- `DatabaseStorage.createProduct` (lines 84-87): cast and save. -/
def createProduct (s : Store) (newId : String) (body : JObj) :
    Except JsErr (ProductRec × Store) :=
  match toProductRec newId body with
  | none => .error (.mongooseValidation ["Product validation failed"])
  | some r => .ok (r, { s with products := s.products ++ [r] })

/-- `DatabaseStorage.updateProduct` (lines 89-95): patch by id, 404 when
the id matches no document. -/
def updateProduct (s : Store) (id : String) (body : JObj) :
    Except JsErr (ProductRec × Store) :=
  match s.products.find? (fun p => p._id = id) with
  | none => .error (.apiError "Product not found for update" 404)
  | some p =>
      .ok (applyProductPatch p body,
           { s with products :=
               (updateFirstBy (fun q => q._id) id (fun q => applyProductPatch q body)
                 s.products) })

/-- `DatabaseStorage.deleteProduct` (lines 97-102): delete by id, 404
when the id matches no document. -/
def deleteProduct (s : Store) (id : String) : Except JsErr Store :=
  match s.products.find? (fun p => p._id = id) with
  | none => .error (.apiError "Product not found for deletion" 404)
  | some _ =>
      .ok { s with products := removeFirstBy (fun q => q._id) id s.products }

/-- `DatabaseStorage.createOrder` (lines 121-124). -/
def createOrder (s : Store) (newId : String) (body : JObj) :
    Except JsErr (OrderRec × Store) :=
  match toOrderRec newId body with
  | none => .error (.mongooseValidation ["Order validation failed"])
  | some r => .ok (r, { s with orders := s.orders ++ [r] })

/-- `DatabaseStorage.updateOrder` (lines 126-132). -/
def updateOrder (s : Store) (id : String) (body : JObj) :
    Except JsErr (OrderRec × Store) :=
  match s.orders.find? (fun o => o._id = id) with
  | none => .error (.apiError "Order not found for update" 404)
  | some o =>
      .ok (applyOrderPatch o body,
           { s with orders :=
               (updateFirstBy (fun q => q._id) id (fun q => applyOrderPatch q body)
                 s.orders) })

/-- `DatabaseStorage.createEmployee` (lines 164-167). -/
def createEmployee (s : Store) (newId : String) (body : JObj) :
    Except JsErr (EmployeeRec × Store) :=
  match toEmployeeRec newId body with
  | none => .error (.mongooseValidation ["Employee validation failed"])
  | some r => .ok (r, { s with employees := s.employees ++ [r] })

/-- `DatabaseStorage.updateEmployee` (lines 169-175). -/
def updateEmployee (s : Store) (id : String) (body : JObj) :
    Except JsErr (EmployeeRec × Store) :=
  match s.employees.find? (fun e => e._id = id) with
  | none => .error (.apiError "Employee not found for update" 404)
  | some e =>
      .ok (applyEmployeePatch e body,
           { s with employees :=
               (updateFirstBy (fun q => q._id) id (fun q => applyEmployeePatch q body)
                 s.employees) })

/-- `DatabaseStorage.createTransaction` (lines 201-204). -/
def createTransaction (s : Store) (newId : String) (body : JObj) :
    Except JsErr (TransactionRec × Store) :=
  match toTransactionRec newId body with
  | none => .error (.mongooseValidation ["Transaction validation failed"])
  | some r => .ok (r, { s with transactions := s.transactions ++ [r] })

/-- The KPI response shape of `getDashboardKPIs`. -/
structure KPIs where
  totalRevenue : Int
  activeOrders : Nat
  inventoryItems : Nat
  employees : Nat
  deriving DecidableEq, Repr

/-- `DatabaseStorage.getDashboardKPIs` (`server/storage.ts` lines
221-241): `Transaction.find({type: "income"})` summed with `reduce`,
`Order.countDocuments({status: "pending"})`,
`Product.countDocuments()`, `Employee.countDocuments()`. -/
def getDashboardKPIs (s : Store) : KPIs :=
  let incomeTransactions := s.transactions.filter (fun t => t.type = "income")
  { totalRevenue := (incomeTransactions.map (fun t => t.amount)).foldl (· + ·) 0
    activeOrders := (s.orders.filter (fun o => o.status = "pending")).length
    inventoryItems := s.products.length
    employees := s.employees.length }

/-! ## The HTTP surface (`routes.ts` `registerRoutes`, lines 105-451) -/

inductive Method where
  | GET | POST | PUT | DELETE
  deriving DecidableEq, Repr

/-- One `app.<verb>(path, ...)` registration: its verb, path pattern,
whether the `protect` middleware is installed, and whether a
`validate(schema)` middleware is installed. -/
structure RouteEntry where
  method : Method
  path : String
  requiresAuth : Bool
  hasValidation : Bool
  deriving DecidableEq, Repr

/-- Every route registered in `registerRoutes`, in source order. -/
def routes : List RouteEntry :=
  [ { method := .POST, path := "/api/auth/register", requiresAuth := false, hasValidation := false }
  , { method := .POST, path := "/api/auth/login", requiresAuth := false, hasValidation := false }
  , { method := .POST, path := "/api/auth/logout", requiresAuth := true, hasValidation := false }
  , { method := .GET, path := "/api/dashboard/kpis", requiresAuth := true, hasValidation := false }
  , { method := .GET, path := "/api/products", requiresAuth := true, hasValidation := false }
  , { method := .GET, path := "/api/products/:id", requiresAuth := true, hasValidation := false }
  , { method := .POST, path := "/api/products", requiresAuth := true, hasValidation := true }
  , { method := .PUT, path := "/api/products/:id", requiresAuth := true, hasValidation := true }
  , { method := .DELETE, path := "/api/products/:id", requiresAuth := true, hasValidation := false }
  , { method := .GET, path := "/api/orders", requiresAuth := true, hasValidation := false }
  , { method := .POST, path := "/api/orders", requiresAuth := true, hasValidation := true }
  , { method := .PUT, path := "/api/orders/:id", requiresAuth := true, hasValidation := true }
  , { method := .GET, path := "/api/employees", requiresAuth := true, hasValidation := false }
  , { method := .POST, path := "/api/employees", requiresAuth := true, hasValidation := true }
  , { method := .PUT, path := "/api/employees/:id", requiresAuth := true, hasValidation := true }
  , { method := .GET, path := "/api/transactions", requiresAuth := true, hasValidation := false }
  , { method := .POST, path := "/api/transactions", requiresAuth := true, hasValidation := true } ]

/-- Whether some registered route has the given verb and path. -/
def hasRoute (m : Method) (p : String) : Bool :=
  routes.any (fun r => r.method = m ∧ r.path = p)

/-- Whether some registered *protected* route has the given verb and path. -/
def hasProtectedRoute (m : Method) (p : String) : Bool :=
  routes.any (fun r => r.method = m ∧ r.path = p ∧ r.requiresAuth)

/-- Result of a route handler: a JSON response with status, or an error
forwarded to the error handler. -/
inductive HandlerResult (α : Type) where
  | json (status : Nat) (body : α)
  | err (e : JsErr)
  deriving DecidableEq, Repr

/-- The `GET /api/products/:id` handler (`routes.ts` lines 322-333):
calls `storage.getProduct`, re-checks the result for `null`, then
responds 200. -/
def getProductRoute (s : Store) (id : String) : HandlerResult ProductRec :=
  match getProduct s id with
  | .error e => .err e
  | .ok none => .err (.apiError "Product not found" 404)
  | .ok (some p) => .json 200 p

/-- The `DELETE /api/products/:id` handler (`routes.ts` lines 356-364):
`storage.deleteProduct` then `res.status(204).send()`; a thrown error
leaves the store unchanged and is forwarded. -/
def deleteProductRoute (s : Store) (id : String) : Store × HandlerResult Unit :=
  match deleteProduct s id with
  | .error e => (s, .err e)
  | .ok s' => (s', .json 204 ())

/-! ## State-changing API operations and reachable stores

Each constructor is one state-changing endpoint of the HTTP surface,
carrying the request body it received (and the fresh ObjectId mongoose
would assign).  `step` runs the endpoint's middleware chain exactly as
`registerRoutes` wires it: the mutating product/order/employee/transaction
handlers run behind `validate(schema)` (full schema on POST, `.partial()`
on PUT); a failing stage leaves the store unchanged. -/
inductive Op where
  | register (newId email password firstName lastName : String)
  | createProduct (newId : String) (body : JObj)
  | updateProduct (id : String) (body : JObj)
  | deleteProduct (id : String)
  | createOrder (newId : String) (body : JObj)
  | updateOrder (id : String) (body : JObj)
  | createEmployee (newId : String) (body : JObj)
  | updateEmployee (id : String) (body : JObj)
  | createTransaction (newId : String) (body : JObj)

/-- Run one state-changing request against the store; `hash` is the
bcrypt `hashPassword` collaborator used by registration. -/
def step (hash : String → String) (s : Store) : Op → Store
  | .register newId email password firstName lastName =>
      { s with users :=
          (registerUser hash none 0 newId s.users email password firstName lastName).1 }
  | .createProduct newId body =>
      match validate insertProductSchema body with
      | .failed _ => s
      | .next b =>
          match createProduct s newId b with
          | .error _ => s
          | .ok (_, s') => s'
  | .updateProduct id body =>
      match validate (zodOptionalAll insertProductSchema) body with
      | .failed _ => s
      | .next b =>
          match updateProduct s id b with
          | .error _ => s
          | .ok (_, s') => s'
  | .deleteProduct id => (deleteProductRoute s id).1
  | .createOrder newId body =>
      match validate insertOrderSchema body with
      | .failed _ => s
      | .next b =>
          match createOrder s newId b with
          | .error _ => s
          | .ok (_, s') => s'
  | .updateOrder id body =>
      match validate (zodOptionalAll insertOrderSchema) body with
      | .failed _ => s
      | .next b =>
          match updateOrder s id b with
          | .error _ => s
          | .ok (_, s') => s'
  | .createEmployee newId body =>
      match validate insertEmployeeSchema body with
      | .failed _ => s
      | .next b =>
          match createEmployee s newId b with
          | .error _ => s
          | .ok (_, s') => s'
  | .updateEmployee id body =>
      match validate (zodOptionalAll insertEmployeeSchema) body with
      | .failed _ => s
      | .next b =>
          match updateEmployee s id b with
          | .error _ => s
          | .ok (_, s') => s'
  | .createTransaction newId body =>
      match validate insertTransactionSchema body with
      | .failed _ => s
      | .next b =>
          match createTransaction s newId b with
          | .error _ => s
          | .ok (_, s') => s'

/-- The store after a sequence of API requests from the empty database. -/
def run (hash : String → String) (ops : List Op) : Store :=
  ops.foldl (step hash) emptyStore

/-- All persisted monetary amounts of a store are non-negative: product
prices, order total amounts, transaction amounts, and employee salaries
when present. -/
def moneyOk (s : Store) : Prop :=
  (∀ p ∈ s.products, 0 ≤ p.price) ∧
  (∀ o ∈ s.orders, 0 ≤ o.totalAmount) ∧
  (∀ t ∈ s.transactions, 0 ≤ t.amount) ∧
  (∀ e ∈ s.employees, ∀ n, e.salary = some n → 0 ≤ n)

/-! ## Concrete instances used by the claims -/

/-- Whether a login attempt authenticates: the email resolves to a user
and the bcrypt comparison accepts (spec-side characterisation of the
success condition of `loginUser`). -/
def loginAuthOk (cmp : String → String → Bool) (users : List UserRec)
    (email password : String) : Bool :=
  match findUserByEmail users email with
  | none => false
  | some u => cmp password u.password

/-- A product body violating three field constraints at once. -/
def badProductBody : JObj :=
  [("name", .jstr ""), ("sku", .jstr "SKU-1"), ("category", .jstr "misc"),
   ("price", .jnum (-5)), ("stock", .jnum (-1))]

/-- A valid product body that omits the defaulted `status` field. -/
def defaultedProductBody : JObj :=
  [("name", .jstr "Widget"), ("sku", .jstr "W-1"), ("category", .jstr "misc"),
   ("price", .jnum 5), ("stock", .jnum 0)]

/-- What `insertProductSchema.parse` makes of `defaultedProductBody`:
the zod default `status: 'active'` has been added. -/
def defaultedProductParsed : JObj :=
  [("name", .jstr "Widget"), ("sku", .jstr "W-1"), ("category", .jstr "misc"),
   ("price", .jnum 5), ("stock", .jnum 0), ("status", .jstr "active")]

/-- A valid employee body whose `hireDate` arrives as a string. -/
def employeeDateBody : JObj :=
  [("employeeId", .jstr "E1"), ("firstName", .jstr "Ada"), ("lastName", .jstr "Byron"),
   ("email", .jstr "ada@x.com"), ("position", .jstr "Engineer"),
   ("department", .jstr "IT"), ("hireDate", .jstr "2024-01-15"),
   ("status", .jstr "active")]

/-- What `insertEmployeeSchema.parse` makes of `employeeDateBody`: the
`hireDate` string has been transformed into a `Date`. -/
def employeeDateParsed : JObj :=
  [("employeeId", .jstr "E1"), ("firstName", .jstr "Ada"), ("lastName", .jstr "Byron"),
   ("email", .jstr "ada@x.com"), ("position", .jstr "Engineer"),
   ("department", .jstr "IT"), ("hireDate", .jdate "2024-01-15"),
   ("status", .jstr "active")]

/-- A store holding one income transaction of 100 and one expense
transaction of 40. -/
def kpiExampleStore : Store :=
  { emptyStore with transactions :=
      [ { _id := "t1", description := "Sale", amount := 100, type := "income"
          category := "sales", date := "2024-01-01" }
      , { _id := "t2", description := "Rent", amount := 40, type := "expense"
          category := "rent", date := "2024-01-02" } ] }

/-- A one-user credential store for the login/registration instances. -/
def exampleUsers : List UserRec :=
  [ { _id := "u1", email := "user@x.com", password := "hashed:rightpw"
      firstName := "Uma", lastName := "Xi", profileImageUrl := ""
      role := "staff" } ]

/-- A bcrypt-comparison stand-in matching `exampleUsers`'s stored hash. -/
def exampleCmp (password hashed : String) : Bool :=
  hashed = "hashed:" ++ password

/-! # Theorems -/

/-- C3: a token issued by `generateToken` at time `T` expires exactly one
hour (3600 s) after `T`; verifying it against the same process secret at
`T + 59` minutes succeeds with the embedded user identifier, and at
`T + 61` minutes fails with the expired-token outcome. -/
theorem generateToken_expires_in_one_hour (env : Option String) (userId : String) (T : Nat) :
    (generateToken env userId T).exp = T + 3600 ∧
    jwtVerify (generateToken env userId T) (JWT_SECRET env) (T + 59 * 60) =
      .ok userId ∧
    jwtVerify (generateToken env userId T) (JWT_SECRET env) (T + 61 * 60) =
      .tokenExpired := by
  refine ⟨rfl, ?_, ?_⟩
  · simp only [generateToken, jwtSign, jwtVerify, JWT_EXPIRES_IN_SECONDS]
    simp
  · simp only [generateToken, jwtSign, jwtVerify, JWT_EXPIRES_IN_SECONDS]
    simp

/-- C1: with no bearer token in the `Authorization` header, `protect`
fails with 401 `Not authorized, no token` and the downstream handler is
never invoked (the response is the same for every handler); when a token
is present but verification fails, the error-handler translation carries
exactly `Not authorized, token failed` (signature/format failure) or
`Not authorized, token expired` (expiry), both with status 401. -/
theorem protect_unauthorized_responses {α : Type} (verify : String → VerifyResult)
    (req : Request) (handler : String → ErrResponse ⊕ α) (tok : String) :
    (extractToken req = none →
      runProtected verify req handler =
        .inl { status := 401, success := false, message := "Not authorized, no token" }) ∧
    (extractToken req = some "" →
      runProtected verify req handler =
        .inl { status := 401, success := false, message := "Not authorized, no token" }) ∧
    (extractToken req = some tok → tok ≠ "" → verify tok = .jwtError →
      runProtected verify req handler =
        .inl { status := 401, success := false, message := "Not authorized, token failed" }) ∧
    (extractToken req = some tok → tok ≠ "" → verify tok = .tokenExpired →
      runProtected verify req handler =
        .inl { status := 401, success := false, message := "Not authorized, token expired" }) := by
  refine ⟨?_, ?_, ?_, ?_⟩
  · intro h
    simp [runProtected, protect, h, errorHandler]
  · intro h
    simp [runProtected, protect, h, errorHandler]
  · intro h hne hv
    simp [runProtected, protect, h, hne, hv, errorHandler]
  · intro h hne hv
    simp [runProtected, protect, h, hne, hv, errorHandler]

/-- Witness for C1: concrete requests with no header, a tampered token
and an expired token, each yielding the exact 401 message. -/
theorem protect_unauthorized_responses_witness :
    runProtected (α := Nat) (fun _ => .ok "u1") { authorization := none }
        (fun _ => .inr 0) =
      .inl { status := 401, success := false, message := "Not authorized, no token" } ∧
    runProtected (α := Nat) (fun _ => .jwtError)
        { authorization := some "Bearer tampered.token" } (fun _ => .inr 0) =
      .inl { status := 401, success := false, message := "Not authorized, token failed" } ∧
    runProtected (α := Nat) (fun _ => .tokenExpired)
        { authorization := some "Bearer expired.token" } (fun _ => .inr 0) =
      .inl { status := 401, success := false, message := "Not authorized, token expired" } := by
  refine ⟨?_, ?_, ?_⟩
  · exact (protect_unauthorized_responses (fun _ => .ok "u1")
      { authorization := none } (fun _ => .inr 0) "x").1 rfl
  · exact (protect_unauthorized_responses (fun _ => .jwtError)
      { authorization := some "Bearer tampered.token" } (fun _ => .inr 0)
      "tampered.token").2.2.1 (by decide) (by decide) rfl
  · exact (protect_unauthorized_responses (fun _ => .tokenExpired)
      { authorization := some "Bearer expired.token" } (fun _ => .inr 0)
      "expired.token").2.2.2 (by decide) (by decide) rfl

/-- C10: `getProduct` never resolves with `null` — it either returns the
found document or throws `ApiError('Product not found', 404)` — so the
`if (!product)` branch of the `GET /api/products/:id` handler is
unreachable and the route answers 200 with the product or 404. -/
theorem getProduct_never_null (s : Store) (id : String) :
    getProduct s id ≠ Except.ok none ∧
    getProductRoute s id =
      (match s.products.find? (fun p => p._id = id) with
       | some p => .json 200 p
       | none => .err (.apiError "Product not found" 404)) := by
  constructor
  · cases h : s.products.find? (fun p => p._id = id) <;>
      simp [getProduct, h]
  · cases h : s.products.find? (fun p => p._id = id) <;>
      simp [getProductRoute, getProduct, h]

/-- C2: whenever authentication does not succeed — the email resolves to
no user, or it resolves but the bcrypt comparison rejects — `loginUser`
produces exactly `ApiError('Invalid credentials', 400)`; any two failing
runs are therefore indistinguishable.  When lookup and comparison both
succeed it answers 200 with the user's profile and a fresh token. -/
theorem loginUser_uniform_invalid_credentials
    (cmp cmp' : String → String → Bool) (env env' : Option String)
    (now now' : Nat) (users users' : List UserRec)
    (email password email' password' : String) :
    (loginAuthOk cmp users email password = false →
      loginUser cmp env now users email password =
        .err (.apiError "Invalid credentials" 400)) ∧
    (loginAuthOk cmp users email password = false →
      loginAuthOk cmp' users' email' password' = false →
      loginUser cmp env now users email password =
        loginUser cmp' env' now' users' email' password') ∧
    (∀ u, findUserByEmail users email = some u → cmp password u.password = true →
      loginUser cmp env now users email password =
        .ok 200
          { id := u._id, email := u.email, firstName := u.firstName
            lastName := u.lastName, role := u.role
            token := generateToken env u._id now }) := by
  have key : ∀ (c : String → String → Bool) (e : Option String) (n : Nat)
      (us : List UserRec) (em pw : String),
      loginAuthOk c us em pw = false →
      loginUser c e n us em pw = .err (.apiError "Invalid credentials" 400) := by
    intro c e n us em pw h
    unfold loginAuthOk at h
    unfold loginUser
    cases hu : findUserByEmail us em with
    | none => simp
    | some u =>
        rw [hu] at h
        simp only [] at h
        simp [h]
  refine ⟨fun h => key cmp env now users email password h, ?_, ?_⟩
  · intro h h'
    rw [key cmp env now users email password h,
        key cmp' env' now' users' email' password' h']
  · intro u hu hcmp
    unfold loginUser
    rw [hu]
    simp [hcmp]

/-- Witness for C2: against a store holding `user@x.com` with hash
`hashed:rightpw`, an unknown email and a wrong password produce the same
`Invalid credentials` error, and the right pair logs in. -/
theorem loginUser_uniform_invalid_credentials_witness :
    loginUser exampleCmp none 0 exampleUsers "nobody@x.com" "rightpw" =
      .err (.apiError "Invalid credentials" 400) ∧
    loginUser exampleCmp none 0 exampleUsers "nobody@x.com" "rightpw" =
      loginUser exampleCmp none 0 exampleUsers "user@x.com" "wrongpw" ∧
    loginUser exampleCmp none 0 exampleUsers "user@x.com" "rightpw" =
      .ok 200
        { id := "u1", email := "user@x.com", firstName := "Uma"
          lastName := "Xi", role := "staff"
          token := generateToken none "u1" 0 } := by
  refine ⟨?_, ?_, ?_⟩
  · exact (loginUser_uniform_invalid_credentials exampleCmp exampleCmp none none 0 0
      exampleUsers exampleUsers "nobody@x.com" "rightpw" "" "").1 (by decide)
  · exact (loginUser_uniform_invalid_credentials exampleCmp exampleCmp none none 0 0
      exampleUsers exampleUsers "nobody@x.com" "rightpw" "user@x.com" "wrongpw").2.1
      (by decide) (by decide)
  · exact (loginUser_uniform_invalid_credentials exampleCmp exampleCmp none none 0 0
      exampleUsers exampleUsers "user@x.com" "rightpw" "" "").2.2
      { _id := "u1", email := "user@x.com", password := "hashed:rightpw"
        firstName := "Uma", lastName := "Xi", profileImageUrl := ""
        role := "staff" } (by decide) (by decide)

/-- C7: `registerUser` on an email that already exists fails with the
duplicate-user `ApiError('User already exists', 400)` and leaves the user
store unchanged; on a fresh email it persists a new user whose stored
password is the bcrypt hash and whose role is `staff`, and answers 201
with the user's id, email, first/last name, role and a fresh token. -/
theorem registerUser_duplicate_or_create
    (hash : String → String) (env : Option String) (now : Nat)
    (newId : String) (users : List UserRec)
    (email password firstName lastName : String) :
    ((∃ u, findUserByEmail users email = some u) →
      registerUser hash env now newId users email password firstName lastName =
        (users, .err (.apiError "User already exists" 400))) ∧
    (findUserByEmail users email = none →
      registerUser hash env now newId users email password firstName lastName =
        (users ++
          [{ _id := newId, email := email, password := hash password
             firstName := firstName, lastName := lastName
             profileImageUrl := "", role := "staff" }],
         .ok 201
           { id := newId, email := email, firstName := firstName
             lastName := lastName, role := "staff"
             token := generateToken env newId now })) := by
  constructor
  · rintro ⟨u, hu⟩
    unfold registerUser
    rw [hu]
  · intro h
    unfold registerUser
    rw [h]

/-- Witness for C7: registering `user@x.com` against `exampleUsers`
fails with the duplicate error and changes nothing; registering
`new@x.com` appends the staff user and answers 201. -/
theorem registerUser_duplicate_or_create_witness :
    registerUser (fun p => "hashed:" ++ p) none 0 "u2" exampleUsers
        "user@x.com" "pw" "New" "Person" =
      (exampleUsers, .err (.apiError "User already exists" 400)) ∧
    registerUser (fun p => "hashed:" ++ p) none 0 "u2" exampleUsers
        "new@x.com" "pw" "New" "Person" =
      (exampleUsers ++
        [{ _id := "u2", email := "new@x.com", password := "hashed:pw"
           firstName := "New", lastName := "Person"
           profileImageUrl := "", role := "staff" }],
       .ok 201
         { id := "u2", email := "new@x.com", firstName := "New"
           lastName := "Person", role := "staff"
           token := generateToken none "u2" 0 }) := by
  constructor
  · exact (registerUser_duplicate_or_create (fun p => "hashed:" ++ p) none 0 "u2"
      exampleUsers "user@x.com" "pw" "New" "Person").1
      ⟨{ _id := "u1", email := "user@x.com", password := "hashed:rightpw"
         firstName := "Uma", lastName := "Xi", profileImageUrl := ""
         role := "staff" }, by decide⟩
  · exact (registerUser_duplicate_or_create (fun p => "hashed:" ++ p) none 0 "u2"
      exampleUsers "new@x.com" "pw" "New" "Person").2 (by decide)

/-- The revenue fold of `getDashboardKPIs` equals, from any accumulator,
the accumulator plus the sum over all transactions of the amount when the
type is `income` and `0` otherwise. -/
theorem revenue_foldl_eq (l : List TransactionRec) (a : Int) :
    ((l.filter (fun t => t.type = "income")).map (fun t => t.amount)).foldl (· + ·) a =
      a + (l.map (fun t => if t.type = "income" then t.amount else 0)).sum := by
  induction l generalizing a with
  | nil => simp
  | cons t ts ih =>
      by_cases h : t.type = "income"
      · simp [List.filter_cons, h, ih, add_assoc]
      · simp [List.filter_cons, h, ih]

/-- C5: `getDashboardKPIs` reports `totalRevenue` as the sum of the
amounts of exactly the income transactions (expense and transfer
transactions contribute nothing), `activeOrders` as the number of
pending orders, `inventoryItems` as the number of products and
`employees` as the number of employees; on a store with one income
transaction of 100 and one expense transaction of 40 it reports
`totalRevenue = 100`. -/
theorem getDashboardKPIs_aggregates (s : Store) :
    (getDashboardKPIs s).totalRevenue =
      (s.transactions.map (fun t => if t.type = "income" then t.amount else 0)).sum ∧
    (getDashboardKPIs s).activeOrders =
      (s.orders.filter (fun o => o.status = "pending")).length ∧
    (getDashboardKPIs s).inventoryItems = s.products.length ∧
    (getDashboardKPIs s).employees = s.employees.length ∧
    (getDashboardKPIs kpiExampleStore).totalRevenue = 100 := by
  refine ⟨?_, rfl, rfl, rfl, by decide⟩
  simpa using revenue_foldl_eq s.transactions 0

/-- C4: on a schema violation `validate` fails the request with an
`ApiError` of status 400 whose message is exactly
`"Validation Error: "` followed by all collected field-level messages
joined with `", "`; on a conforming body it passes control to the next
handler.  Concretely, a product body with an empty name, price −5 and
stock −1 yields the three field messages joined into one composite. -/
theorem validate_validation_error_format (schema : List FieldSpec) (body : JObj) :
    (∀ msgs, zodParse schema body = .error msgs →
      validate schema body =
        .failed (.apiError ("Validation Error: " ++ String.intercalate ", " msgs) 400)) ∧
    (∀ parsed, zodParse schema body = .ok parsed →
      validate schema body = .next body) ∧
    validate insertProductSchema badProductBody =
      .failed (.apiError
        ("Validation Error: " ++
          "Product name is required, Price must be a positive number, Stock cannot be negative")
        400) := by
  refine ⟨?_, ?_, by decide⟩
  · intro msgs h
    unfold validate
    rw [h]
  · intro parsed h
    unfold validate
    rw [h]

/-- Witness for C4: the bad product body fails with the composite
message; the defaulted product body passes unchanged. -/
theorem validate_validation_error_format_witness :
    validate insertProductSchema badProductBody =
      .failed (.apiError
        ("Validation Error: " ++
          "Product name is required, Price must be a positive number, Stock cannot be negative")
        400) ∧
    validate insertProductSchema defaultedProductBody =
      .next defaultedProductBody := by
  constructor
  · exact (validate_validation_error_format insertProductSchema badProductBody).1
      ["Product name is required", "Price must be a positive number",
       "Stock cannot be negative"] (by decide)
  · exact (validate_validation_error_format insertProductSchema defaultedProductBody).2.1
      defaultedProductParsed (by decide)

/-- C9: the `validate` middleware discards the result of `schema.parse`:
whenever parsing succeeds it forwards the original `req.body` unchanged,
so zod-applied defaults (product `status: 'active'`) and string-to-`Date`
transforms (employee `hireDate`) never reach the downstream handler.  The
concrete conjuncts exhibit both: the parse results differ from the bodies
— the default is added, the date string becomes a `Date` — yet the
middleware passes the original bodies on. -/
theorem validate_discards_parse_result (schema : List FieldSpec) (body parsed : JObj)
    (h : zodParse schema body = .ok parsed) :
    validate schema body = .next body ∧
    zodParse insertProductSchema defaultedProductBody = .ok defaultedProductParsed ∧
    defaultedProductBody.get "status" = none ∧
    defaultedProductParsed.get "status" = some (.jstr "active") ∧
    validate insertProductSchema defaultedProductBody = .next defaultedProductBody ∧
    zodParse insertEmployeeSchema employeeDateBody = .ok employeeDateParsed ∧
    employeeDateBody.get "hireDate" = some (.jstr "2024-01-15") ∧
    employeeDateParsed.get "hireDate" = some (.jdate "2024-01-15") ∧
    validate insertEmployeeSchema employeeDateBody = .next employeeDateBody := by
  refine ⟨?_, by decide, by decide, by decide, by decide, by decide, by decide,
    by decide, by decide⟩
  unfold validate
  rw [h]

/-- Witness for C9: instantiated on the defaulted product body. -/
theorem validate_discards_parse_result_witness :
    validate insertProductSchema defaultedProductBody = .next defaultedProductBody := by
  exact (validate_discards_parse_result insertProductSchema defaultedProductBody
    defaultedProductParsed (by decide)).1

/-- Everything in `removeFirstBy key id l` was in `l`. -/
theorem mem_removeFirstBy {α : Type} (key : α → String) (id : String)
    (l : List α) (y : α) (hy : y ∈ removeFirstBy key id l) : y ∈ l := by
  induction l with
  | nil => simp [removeFirstBy] at hy
  | cons x xs ih =>
      by_cases h : key x = id
      · simp only [removeFirstBy, if_pos h] at hy
        exact List.mem_cons_of_mem x hy
      · simp only [removeFirstBy, if_neg h, List.mem_cons] at hy
        rcases hy with hy | hy
        · exact hy ▸ List.mem_cons_self x xs
        · exact List.mem_cons_of_mem x (ih hy)

/-- When the keys of `l` are pairwise distinct, removing the first
element keyed `id` leaves no element keyed `id`. -/
theorem find?_removeFirstBy_of_nodup {α : Type} (key : α → String) (id : String)
    (l : List α) (hnd : (l.map key).Nodup) :
    (removeFirstBy key id l).find? (fun x => key x = id) = none := by
  induction l with
  | nil => rfl
  | cons x xs ih =>
      simp only [List.map_cons, List.nodup_cons] at hnd
      by_cases h : key x = id
      · simp only [removeFirstBy, if_pos h]
        apply List.find?_eq_none.mpr
        intro y hy
        simp only [decide_eq_true_eq]
        intro hkey
        exact hnd.1 (h ▸ hkey ▸ List.mem_map_of_mem key hy)
      · simp only [removeFirstBy, if_neg h]
        rw [List.find?_cons_of_neg, ih hnd.2]
        simp [h]

/-- Counterexample to C6: the HTTP surface does not expose the same verb
set for the four entities — there is no `DELETE` route for orders,
employees or transactions, and no `PUT` route for transactions; only
products carries the full `GET/POST/PUT/DELETE` set. -/
theorem routes_not_uniform_verb_set :
    hasRoute .DELETE "/api/orders/:id" = false ∧
    hasRoute .DELETE "/api/employees/:id" = false ∧
    hasRoute .DELETE "/api/transactions/:id" = false ∧
    hasRoute .PUT "/api/transactions/:id" = false := by
  decide

/-- C6 (amended): only products exposes the full protected verb set
`GET/POST/PUT/DELETE` (orders and employees lack `DELETE`, transactions
lacks `PUT` and `DELETE`); the product `DELETE` endpoint answers 204 and
removes the document when the id exists and fails with the 404
`Product not found for deletion` error when it does not, so — product ids
being distinct — deleting the same id twice yields 204 then 404. -/
theorem products_delete_204_then_404 (s : Store) (id : String) (p : ProductRec) :
    (hasProtectedRoute .GET "/api/products" = true ∧
     hasProtectedRoute .POST "/api/products" = true ∧
     hasProtectedRoute .PUT "/api/products/:id" = true ∧
     hasProtectedRoute .DELETE "/api/products/:id" = true ∧
     hasRoute .DELETE "/api/orders/:id" = false ∧
     hasRoute .DELETE "/api/employees/:id" = false ∧
     hasRoute .PUT "/api/transactions/:id" = false ∧
     hasRoute .DELETE "/api/transactions/:id" = false) ∧
    (s.products.find? (fun q => q._id = id) = none →
      deleteProductRoute s id =
        (s, .err (.apiError "Product not found for deletion" 404))) ∧
    (s.products.find? (fun q => q._id = id) = some p →
      (deleteProductRoute s id).2 = .json 204 () ∧
      (deleteProductRoute s id).1.products =
        removeFirstBy (fun q => q._id) id s.products ∧
      ((s.products.map (fun q => q._id)).Nodup →
        (deleteProductRoute (deleteProductRoute s id).1 id).2 =
          .err (.apiError "Product not found for deletion" 404))) ∧
    errorHandler (.apiError "Product not found for deletion" 404) =
      { status := 404, success := false, message := "Product not found for deletion" } := by
  refine ⟨by decide, ?_, ?_, rfl⟩
  · intro h
    simp [deleteProductRoute, deleteProduct, h]
  · intro h
    refine ⟨?_, ?_, ?_⟩
    · simp [deleteProductRoute, deleteProduct, h]
    · simp [deleteProductRoute, deleteProduct, h]
    · intro hnd
      have hs1 : (deleteProductRoute s id).1.products =
          removeFirstBy (fun q => q._id) id s.products := by
        simp [deleteProductRoute, deleteProduct, h]
      generalize ht : (deleteProductRoute s id).1 = t at hs1 ⊢
      have hfind : t.products.find? (fun q => q._id = id) = none := by
        rw [hs1]
        exact find?_removeFirstBy_of_nodup (fun q => q._id) id s.products hnd
      simp [deleteProductRoute, deleteProduct, hfind]

/-- Witness for C6: on a store with one product `p1`, deleting `p1`
yields 204 and deleting it again yields the 404 error; deleting a
missing id `zz` yields the 404 error at once. -/
theorem products_delete_204_then_404_witness :
    (deleteProductRoute
        { emptyStore with products :=
            [{ _id := "p1", name := "Widget", description := none, sku := "W-1"
               category := "misc", price := 5, stock := 0, status := "active" }] }
        "p1").2 = .json 204 () ∧
    (deleteProductRoute
        (deleteProductRoute
          { emptyStore with products :=
              [{ _id := "p1", name := "Widget", description := none, sku := "W-1"
                 category := "misc", price := 5, stock := 0, status := "active" }] }
          "p1").1
        "p1").2 = .err (.apiError "Product not found for deletion" 404) ∧
    deleteProductRoute emptyStore "zz" =
      (emptyStore, .err (.apiError "Product not found for deletion" 404)) := by
  refine ⟨?_, ?_, ?_⟩
  · exact ((products_delete_204_then_404
      { emptyStore with products :=
          [{ _id := "p1", name := "Widget", description := none, sku := "W-1"
             category := "misc", price := 5, stock := 0, status := "active" }] }
      "p1"
      { _id := "p1", name := "Widget", description := none, sku := "W-1"
        category := "misc", price := 5, stock := 0, status := "active" }).2.2.1
      (by decide)).1
  · exact ((products_delete_204_then_404
      { emptyStore with products :=
          [{ _id := "p1", name := "Widget", description := none, sku := "W-1"
             category := "misc", price := 5, stock := 0, status := "active" }] }
      "p1"
      { _id := "p1", name := "Widget", description := none, sku := "W-1"
        category := "misc", price := 5, stock := 0, status := "active" }).2.2.1
      (by decide)).2.2 (by decide)
  · exact (products_delete_204_then_404 emptyStore "zz"
      { _id := "p1", name := "Widget", description := none, sku := "W-1"
        category := "misc", price := 5, stock := 0, status := "active" }).2.1
      (by decide)

/-- When the collected issues are empty, no outcome in the list is an
error with a non-empty message list. -/
theorem collectErrs_nil_mem (rs : List (Except (List String) (List (String × JVal))))
    (h : collectErrs rs = []) :
    ∀ r ∈ rs, ∀ m, r = .error m → m = [] := by
  induction rs with
  | nil => simp
  | cons r rs' ih =>
      have hcons : (match r with
          | .error m => m ++ collectErrs rs'
          | .ok _ => collectErrs rs') = [] := h
      cases r with
      | error m =>
          simp only at hcons
          have hm := List.append_eq_nil.mp hcons
          intro r' hr' m' hm'
          rcases List.mem_cons.mp hr' with h1 | h1
          · rw [h1] at hm'
            cases hm'
            exact hm.1
          · exact ih hm.2 r' h1 m' hm'
      | ok bs =>
          simp only at hcons
          intro r' hr' m' hm'
          rcases List.mem_cons.mp hr' with h1 | h1
          · rw [h1] at hm'
            cases hm'
          · exact ih hcons r' h1 m' hm'

/-- A successful `zodParse` means no schema field produced a non-empty
issue list. -/
theorem zodParse_ok_field (schema : List FieldSpec) (o parsed : JObj)
    (h : zodParse schema o = .ok parsed) (f : FieldSpec) (hf : f ∈ schema) :
    ∀ m, parseField f o = .error m → m = [] := by
  unfold zodParse at h
  cases hc : collectErrs (schema.map (fun g => parseField g o)) with
  | nil =>
      exact collectErrs_nil_mem _ hc (parseField f o)
        (List.mem_map_of_mem (fun g => parseField g o) hf)
  | cons e es =>
      rw [hc] at h
      simp at h

/-- A positive-number field that parsed successfully was either absent
(possible only when optional) or present as a positive number. -/
theorem parseField_posNum (key msg : String) (req : Bool) (o : JObj)
    (bs : List (String × JVal))
    (h : parseField ⟨key, .fnum [.positive msg], req, none⟩ o = .ok bs) :
    (o.get key = none ∧ req = false) ∨
      ∃ n, o.get key = some (.jnum n) ∧ 0 < n := by
  unfold parseField at h
  cases hv : o.get key with
  | none =>
      rw [hv] at h
      simp only at h
      cases req with
      | true => simp at h
      | false => exact Or.inl ⟨rfl, rfl⟩
  | some v =>
      rw [hv] at h
      cases v with
      | jnum n =>
          by_cases hn : 0 < n
          · exact Or.inr ⟨n, rfl, hn⟩
          · simp [checkVal, runNumCheck, hn] at h
      | jstr s => simp [checkVal] at h
      | jbool b => simp [checkVal] at h
      | jnull => simp [checkVal] at h
      | jdate d => simp [checkVal] at h

/-- A positive-number field never produces an *empty* issue list. -/
theorem parseField_posNum_ne_error_nil (key msg : String) (req : Bool) (o : JObj) :
    parseField ⟨key, .fnum [.positive msg], req, none⟩ o ≠ .error [] := by
  unfold parseField
  cases hv : o.get key with
  | none =>
      cases req <;> simp
  | some v =>
      cases v with
      | jnum n =>
          by_cases hn : 0 < n <;> simp [checkVal, runNumCheck, hn]
      | jstr s => simp [checkVal, typeMsg]
      | jbool b => simp [checkVal, typeMsg]
      | jnull => simp [checkVal, typeMsg]
      | jdate d => simp [checkVal, typeMsg]

/-- `validate` forwarding the body means the body parsed, and any
positive-number field of the schema was absent-and-optional or present
and positive in the (unchanged) body. -/
theorem validate_posNum_field (schema : List FieldSpec) (body b : JObj)
    (key msg : String) (req : Bool)
    (hmem : (⟨key, .fnum [.positive msg], req, none⟩ : FieldSpec) ∈ schema)
    (h : validate schema body = .next b) :
    b = body ∧
      ((body.get key = none ∧ req = false) ∨
        ∃ n, body.get key = some (.jnum n) ∧ 0 < n) := by
  unfold validate at h
  cases hz : zodParse schema body with
  | error msgs =>
      rw [hz] at h
      simp at h
  | ok parsed =>
      rw [hz] at h
      simp only [ValidateOutcome.next.injEq] at h
      refine ⟨h.symm, ?_⟩
      have hnil := zodParse_ok_field schema body parsed hz _ hmem
      cases hp : parseField ⟨key, .fnum [.positive msg], req, none⟩ body with
      | error m =>
          have hmnil := hnil m hp
          rw [hmnil] at hp
          exact absurd hp (parseField_posNum_ne_error_nil key msg req body)
      | ok bs => exact parseField_posNum key msg req body bs hp

/-- Everything in `updateFirstBy key id f l` is an element of `l` or the
image under `f` of an element of `l`. -/
theorem mem_updateFirstBy {α : Type} (key : α → String) (id : String)
    (f : α → α) (l : List α) (y : α) (hy : y ∈ updateFirstBy key id f l) :
    y ∈ l ∨ ∃ x, x ∈ l ∧ y = f x := by
  induction l with
  | nil => simp [updateFirstBy] at hy
  | cons x xs ih =>
      by_cases h : key x = id
      · simp only [updateFirstBy, if_pos h, List.mem_cons] at hy
        rcases hy with hy | hy
        · exact Or.inr ⟨x, List.mem_cons_self x xs, hy⟩
        · exact Or.inl (List.mem_cons_of_mem x hy)
      · simp only [updateFirstBy, if_neg h, List.mem_cons] at hy
        rcases hy with hy | hy
        · exact Or.inl (hy ▸ List.mem_cons_self x xs)
        · rcases ih hy with h1 | ⟨z, hz, hyz⟩
          · exact Or.inl (List.mem_cons_of_mem x h1)
          · exact Or.inr ⟨z, List.mem_cons_of_mem x hz, hyz⟩

/-- Shape of a successful `createProduct`: the new store appends the cast
document, everything else untouched. -/
theorem createProduct_ok_shape (s : Store) (newId : String) (b : JObj)
    (r : ProductRec) (s' : Store) (h : createProduct s newId b = .ok (r, s')) :
    s' = { s with products := s.products ++ [r] } ∧ toProductRec newId b = some r := by
  unfold createProduct at h
  cases ht : toProductRec newId b with
  | none => rw [ht] at h; simp at h
  | some r0 =>
      rw [ht] at h
      simp only [Except.ok.injEq, Prod.mk.injEq] at h
      obtain ⟨hr, hs⟩ := h
      subst hr
      exact ⟨hs.symm, rfl⟩

/-- Shape of a successful `updateProduct`: the matched document is
patched in place. -/
theorem updateProduct_ok_shape (s : Store) (id : String) (b : JObj)
    (r : ProductRec) (s' : Store) (h : updateProduct s id b = .ok (r, s')) :
    s' = { s with products :=
      (updateFirstBy (fun q => q._id) id (fun q => applyProductPatch q b)
        s.products) } := by
  unfold updateProduct at h
  cases hf : s.products.find? (fun p => p._id = id) with
  | none => rw [hf] at h; simp at h
  | some p =>
      rw [hf] at h
      simp only [Except.ok.injEq, Prod.mk.injEq] at h
      exact h.2.symm

/-- Shape of a successful `createOrder`. -/
theorem createOrder_ok_shape (s : Store) (newId : String) (b : JObj)
    (r : OrderRec) (s' : Store) (h : createOrder s newId b = .ok (r, s')) :
    s' = { s with orders := s.orders ++ [r] } ∧ toOrderRec newId b = some r := by
  unfold createOrder at h
  cases ht : toOrderRec newId b with
  | none => rw [ht] at h; simp at h
  | some r0 =>
      rw [ht] at h
      simp only [Except.ok.injEq, Prod.mk.injEq] at h
      obtain ⟨hr, hs⟩ := h
      subst hr
      exact ⟨hs.symm, rfl⟩

/-- Shape of a successful `updateOrder`. -/
theorem updateOrder_ok_shape (s : Store) (id : String) (b : JObj)
    (r : OrderRec) (s' : Store) (h : updateOrder s id b = .ok (r, s')) :
    s' = { s with orders :=
      (updateFirstBy (fun q => q._id) id (fun q => applyOrderPatch q b)
        s.orders) } := by
  unfold updateOrder at h
  cases hf : s.orders.find? (fun o => o._id = id) with
  | none => rw [hf] at h; simp at h
  | some p =>
      rw [hf] at h
      simp only [Except.ok.injEq, Prod.mk.injEq] at h
      exact h.2.symm

/-- Shape of a successful `createEmployee`. -/
theorem createEmployee_ok_shape (s : Store) (newId : String) (b : JObj)
    (r : EmployeeRec) (s' : Store) (h : createEmployee s newId b = .ok (r, s')) :
    s' = { s with employees := s.employees ++ [r] } ∧ toEmployeeRec newId b = some r := by
  unfold createEmployee at h
  cases ht : toEmployeeRec newId b with
  | none => rw [ht] at h; simp at h
  | some r0 =>
      rw [ht] at h
      simp only [Except.ok.injEq, Prod.mk.injEq] at h
      obtain ⟨hr, hs⟩ := h
      subst hr
      exact ⟨hs.symm, rfl⟩

/-- Shape of a successful `updateEmployee`. -/
theorem updateEmployee_ok_shape (s : Store) (id : String) (b : JObj)
    (r : EmployeeRec) (s' : Store) (h : updateEmployee s id b = .ok (r, s')) :
    s' = { s with employees :=
      (updateFirstBy (fun q => q._id) id (fun q => applyEmployeePatch q b)
        s.employees) } := by
  unfold updateEmployee at h
  cases hf : s.employees.find? (fun e => e._id = id) with
  | none => rw [hf] at h; simp at h
  | some p =>
      rw [hf] at h
      simp only [Except.ok.injEq, Prod.mk.injEq] at h
      exact h.2.symm

/-- Shape of a successful `createTransaction`. -/
theorem createTransaction_ok_shape (s : Store) (newId : String) (b : JObj)
    (r : TransactionRec) (s' : Store) (h : createTransaction s newId b = .ok (r, s')) :
    s' = { s with transactions := s.transactions ++ [r] } ∧
      toTransactionRec newId b = some r := by
  unfold createTransaction at h
  cases ht : toTransactionRec newId b with
  | none => rw [ht] at h; simp at h
  | some r0 =>
      rw [ht] at h
      simp only [Except.ok.injEq, Prod.mk.injEq] at h
      obtain ⟨hr, hs⟩ := h
      subst hr
      exact ⟨hs.symm, rfl⟩

/-- The price of a cast product document is the body's `price` field. -/
theorem toProductRec_price (newId : String) (body : JObj) (r : ProductRec) (n : Int)
    (hget : body.get "price" = some (.jnum n))
    (h : toProductRec newId body = some r) : r.price = n := by
  have hnum : getNum body "price" = some n := by simp [getNum, hget]
  unfold toProductRec at h
  rw [hnum] at h
  cases h1 : getStr body "name" <;> rw [h1] at h <;>
    cases h2 : getStr body "sku" <;> rw [h2] at h <;>
      cases h3 : getStr body "category" <;> rw [h3] at h <;>
        (try simp only [Option.some.injEq, reduceCtorEq] at h)
  all_goals first
    | (exact absurd h (by simp))
    | (rw [← h])

/-- The total amount of a cast order document is the body's
`totalAmount` field. -/
theorem toOrderRec_totalAmount (newId : String) (body : JObj) (r : OrderRec) (n : Int)
    (hget : body.get "totalAmount" = some (.jnum n))
    (h : toOrderRec newId body = some r) : r.totalAmount = n := by
  have hnum : getNum body "totalAmount" = some n := by simp [getNum, hget]
  unfold toOrderRec at h
  rw [hnum] at h
  cases h1 : getStr body "orderNumber" <;> rw [h1] at h <;>
    cases h2 : getStr body "customerName" <;> rw [h2] at h <;>
      (try simp only [Option.some.injEq, reduceCtorEq] at h)
  all_goals first
    | (exact absurd h (by simp))
    | (rw [← h])

/-- The amount of a cast transaction document is the body's `amount`
field. -/
theorem toTransactionRec_amount (newId : String) (body : JObj) (r : TransactionRec)
    (n : Int) (hget : body.get "amount" = some (.jnum n))
    (h : toTransactionRec newId body = some r) : r.amount = n := by
  have hnum : getNum body "amount" = some n := by simp [getNum, hget]
  unfold toTransactionRec at h
  rw [hnum] at h
  cases h1 : getStr body "description" <;> rw [h1] at h <;>
    cases h2 : getStr body "type" <;> rw [h2] at h <;>
      cases h3 : getStr body "category" <;> rw [h3] at h <;>
        cases h4 : getStr body "date" <;> rw [h4] at h <;>
          (try simp only [Option.some.injEq, reduceCtorEq] at h)
  all_goals first
    | (exact absurd h (by simp))
    | (rw [← h])

/-- The salary of a cast employee document is the body's `salary` field
when that is a number, else absent. -/
theorem toEmployeeRec_salary (newId : String) (body : JObj) (r : EmployeeRec)
    (h : toEmployeeRec newId body = some r) : r.salary = getNum body "salary" := by
  unfold toEmployeeRec at h
  cases h1 : getStr body "employeeId" <;> rw [h1] at h <;>
    cases h2 : getStr body "firstName" <;> rw [h2] at h <;>
      cases h3 : getStr body "lastName" <;> rw [h3] at h <;>
        cases h4 : getStr body "email" <;> rw [h4] at h <;>
          cases h5 : getStr body "position" <;> rw [h5] at h <;>
            cases h6 : getStr body "department" <;> rw [h6] at h <;>
              cases h7 : getStr body "hireDate" <;> rw [h7] at h <;>
                (try simp only [Option.some.injEq, reduceCtorEq] at h)
  all_goals first
    | (exact absurd h (by simp))
    | (rw [← h])

/-- Patching preserves a non-negative price when the patch body's
`price`, if present, is positive. -/
theorem applyProductPatch_price (r : ProductRec) (body : JObj)
    (hopt : body.get "price" = none ∨
      ∃ n, body.get "price" = some (.jnum n) ∧ 0 < n)
    (hr : 0 ≤ r.price) : 0 ≤ (applyProductPatch r body).price := by
  unfold applyProductPatch
  rcases hopt with h | ⟨n, h, hn⟩
  · simp [getNum, h, hr]
  · simp only [getNum, h]
    exact le_of_lt hn

/-- Patching preserves a non-negative total amount when the patch body's
`totalAmount`, if present, is positive. -/
theorem applyOrderPatch_totalAmount (r : OrderRec) (body : JObj)
    (hopt : body.get "totalAmount" = none ∨
      ∃ n, body.get "totalAmount" = some (.jnum n) ∧ 0 < n)
    (hr : 0 ≤ r.totalAmount) : 0 ≤ (applyOrderPatch r body).totalAmount := by
  unfold applyOrderPatch
  rcases hopt with h | ⟨n, h, hn⟩
  · simp [getNum, h, hr]
  · simp only [getNum, h]
    exact le_of_lt hn

/-- Patching preserves a non-negative (optional) salary when the patch
body's `salary`, if present, is positive. -/
theorem applyEmployeePatch_salary (r : EmployeeRec) (body : JObj)
    (hopt : body.get "salary" = none ∨
      ∃ n, body.get "salary" = some (.jnum n) ∧ 0 < n)
    (hr : ∀ n, r.salary = some n → 0 ≤ n) :
    ∀ n, (applyEmployeePatch r body).salary = some n → 0 ≤ n := by
  unfold applyEmployeePatch
  rcases hopt with h | ⟨m, h, hm⟩
  · intro n hn
    simp only [getNum, h] at hn
    exact hr n hn
  · intro n hn
    simp only [getNum, h, Option.some.injEq] at hn
    omega

/-- One state-changing request preserves non-negativity of all persisted
monetary amounts: the validation layer in front of every create/update
admits only positive monetary fields, deletion only removes documents,
and registration touches only users. -/
theorem step_preserves_moneyOk (hash : String → String) (s : Store) (op : Op)
    (hm : moneyOk s) : moneyOk (step hash s op) := by
  obtain ⟨hp, ho, ht, he⟩ := hm
  cases op with
  | register newId email password firstName lastName =>
      exact ⟨hp, ho, ht, he⟩
  | createProduct newId body =>
      cases hv : validate insertProductSchema body with
      | failed e => simp only [step, hv]; exact ⟨hp, ho, ht, he⟩
      | next b =>
          cases hc : createProduct s newId b with
          | error e => simp only [step, hv, hc]; exact ⟨hp, ho, ht, he⟩
          | ok pr =>
              obtain ⟨r, s'⟩ := pr
              simp only [step, hv, hc]
              obtain ⟨hs', htp⟩ := createProduct_ok_shape s newId b r s' hc
              subst hs'
              obtain ⟨hb, hpe⟩ := validate_posNum_field insertProductSchema body b
                "price" "Price must be a positive number" true (by decide) hv
              rw [hb] at htp
              rcases hpe with ⟨_, hcontra⟩ | ⟨n, hget, hn⟩
              · exact Bool.noConfusion hcontra
              · refine ⟨?_, ho, ht, he⟩
                intro p hpmem
                rcases List.mem_append.mp hpmem with hin | hin
                · exact hp p hin
                · rw [List.mem_singleton.mp hin,
                      toProductRec_price newId body r n hget htp]
                  exact le_of_lt hn
  | updateProduct id body =>
      cases hv : validate (zodOptionalAll insertProductSchema) body with
      | failed e => simp only [step, hv]; exact ⟨hp, ho, ht, he⟩
      | next b =>
          cases hc : updateProduct s id b with
          | error e => simp only [step, hv, hc]; exact ⟨hp, ho, ht, he⟩
          | ok pr =>
              obtain ⟨r, s'⟩ := pr
              simp only [step, hv, hc]
              have hs' := updateProduct_ok_shape s id b r s' hc
              subst hs'
              obtain ⟨hb, hpe⟩ := validate_posNum_field (zodOptionalAll insertProductSchema)
                body b "price" "Price must be a positive number" false (by decide) hv
              rw [hb]
              refine ⟨?_, ho, ht, he⟩
              intro p hpmem
              rcases mem_updateFirstBy _ _ _ _ p hpmem with hin | ⟨x, hx, hpx⟩
              · exact hp p hin
              · rw [hpx]
                refine applyProductPatch_price x body ?_ (hp x hx)
                rcases hpe with ⟨hnone, _⟩ | hsome
                · exact Or.inl hnone
                · exact Or.inr hsome
  | deleteProduct id =>
      simp only [step]
      cases hf : s.products.find? (fun p => p._id = id) with
      | none =>
          simp only [deleteProductRoute, deleteProduct, hf]
          exact ⟨hp, ho, ht, he⟩
      | some p =>
          simp only [deleteProductRoute, deleteProduct, hf]
          refine ⟨?_, ho, ht, he⟩
          intro q hq
          exact hp q (mem_removeFirstBy _ _ _ q hq)
  | createOrder newId body =>
      cases hv : validate insertOrderSchema body with
      | failed e => simp only [step, hv]; exact ⟨hp, ho, ht, he⟩
      | next b =>
          cases hc : createOrder s newId b with
          | error e => simp only [step, hv, hc]; exact ⟨hp, ho, ht, he⟩
          | ok pr =>
              obtain ⟨r, s'⟩ := pr
              simp only [step, hv, hc]
              obtain ⟨hs', htp⟩ := createOrder_ok_shape s newId b r s' hc
              subst hs'
              obtain ⟨hb, hpe⟩ := validate_posNum_field insertOrderSchema body b
                "totalAmount" "Total amount must be positive" true (by decide) hv
              rw [hb] at htp
              rcases hpe with ⟨_, hcontra⟩ | ⟨n, hget, hn⟩
              · exact Bool.noConfusion hcontra
              · refine ⟨hp, ?_, ht, he⟩
                intro o homem
                rcases List.mem_append.mp homem with hin | hin
                · exact ho o hin
                · rw [List.mem_singleton.mp hin,
                      toOrderRec_totalAmount newId body r n hget htp]
                  exact le_of_lt hn
  | updateOrder id body =>
      cases hv : validate (zodOptionalAll insertOrderSchema) body with
      | failed e => simp only [step, hv]; exact ⟨hp, ho, ht, he⟩
      | next b =>
          cases hc : updateOrder s id b with
          | error e => simp only [step, hv, hc]; exact ⟨hp, ho, ht, he⟩
          | ok pr =>
              obtain ⟨r, s'⟩ := pr
              simp only [step, hv, hc]
              have hs' := updateOrder_ok_shape s id b r s' hc
              subst hs'
              obtain ⟨hb, hpe⟩ := validate_posNum_field (zodOptionalAll insertOrderSchema)
                body b "totalAmount" "Total amount must be positive" false (by decide) hv
              rw [hb]
              refine ⟨hp, ?_, ht, he⟩
              intro o homem
              rcases mem_updateFirstBy _ _ _ _ o homem with hin | ⟨x, hx, hox⟩
              · exact ho o hin
              · rw [hox]
                refine applyOrderPatch_totalAmount x body ?_ (ho x hx)
                rcases hpe with ⟨hnone, _⟩ | hsome
                · exact Or.inl hnone
                · exact Or.inr hsome
  | createEmployee newId body =>
      cases hv : validate insertEmployeeSchema body with
      | failed e => simp only [step, hv]; exact ⟨hp, ho, ht, he⟩
      | next b =>
          cases hc : createEmployee s newId b with
          | error e => simp only [step, hv, hc]; exact ⟨hp, ho, ht, he⟩
          | ok pr =>
              obtain ⟨r, s'⟩ := pr
              simp only [step, hv, hc]
              obtain ⟨hs', htp⟩ := createEmployee_ok_shape s newId b r s' hc
              subst hs'
              obtain ⟨hb, hpe⟩ := validate_posNum_field insertEmployeeSchema body b
                "salary" "Salary must be a positive number" false (by decide) hv
              rw [hb] at htp
              refine ⟨hp, ho, ht, ?_⟩
              intro e hemem
              rcases List.mem_append.mp hemem with hin | hin
              · exact he e hin
              · rw [List.mem_singleton.mp hin]
                intro n hn
                rw [toEmployeeRec_salary newId body r htp] at hn
                rcases hpe with ⟨hnone, _⟩ | ⟨m, hget, hm⟩
                · simp [getNum, hnone] at hn
                · simp only [getNum, hget, Option.some.injEq] at hn
                  omega
  | updateEmployee id body =>
      cases hv : validate (zodOptionalAll insertEmployeeSchema) body with
      | failed e => simp only [step, hv]; exact ⟨hp, ho, ht, he⟩
      | next b =>
          cases hc : updateEmployee s id b with
          | error e => simp only [step, hv, hc]; exact ⟨hp, ho, ht, he⟩
          | ok pr =>
              obtain ⟨r, s'⟩ := pr
              simp only [step, hv, hc]
              have hs' := updateEmployee_ok_shape s id b r s' hc
              subst hs'
              obtain ⟨hb, hpe⟩ := validate_posNum_field (zodOptionalAll insertEmployeeSchema)
                body b "salary" "Salary must be a positive number" false (by decide) hv
              rw [hb]
              refine ⟨hp, ho, ht, ?_⟩
              intro e hemem
              rcases mem_updateFirstBy _ _ _ _ e hemem with hin | ⟨x, hx, hex⟩
              · exact he e hin
              · rw [hex]
                refine applyEmployeePatch_salary x body ?_ (he x hx)
                rcases hpe with ⟨hnone, _⟩ | hsome
                · exact Or.inl hnone
                · exact Or.inr hsome
  | createTransaction newId body =>
      cases hv : validate insertTransactionSchema body with
      | failed e => simp only [step, hv]; exact ⟨hp, ho, ht, he⟩
      | next b =>
          cases hc : createTransaction s newId b with
          | error e => simp only [step, hv, hc]; exact ⟨hp, ho, ht, he⟩
          | ok pr =>
              obtain ⟨r, s'⟩ := pr
              simp only [step, hv, hc]
              obtain ⟨hs', htp⟩ := createTransaction_ok_shape s newId b r s' hc
              subst hs'
              obtain ⟨hb, hpe⟩ := validate_posNum_field insertTransactionSchema body b
                "amount" "Amount must be a positive number" true (by decide) hv
              rw [hb] at htp
              rcases hpe with ⟨_, hcontra⟩ | ⟨n, hget, hn⟩
              · exact Bool.noConfusion hcontra
              · refine ⟨hp, ho, ?_, he⟩
                intro t htmem
                rcases List.mem_append.mp htmem with hin | hin
                · exact ht t hin
                · rw [List.mem_singleton.mp hin,
                      toTransactionRec_amount newId body r n hget htp]
                  exact le_of_lt hn

/-- A fold of state-changing requests preserves the monetary invariant. -/
theorem foldl_step_preserves_moneyOk (hash : String → String) (ops : List Op)
    (s : Store) (hm : moneyOk s) : moneyOk (ops.foldl (step hash) s) := by
  induction ops generalizing s with
  | nil => exact hm
  | cons op ops' ih => exact ih (step hash s op) (step_preserves_moneyOk hash s op hm)

/-- C8: in every store state reachable through the HTTP surface from the
empty database, all persisted monetary amounts — product `price`, order
`totalAmount`, transaction `amount`, and employee `salary` when present —
are non-negative, because every create/update runs behind
`validate(schema)` and the entity schemas constrain the monetary fields
to positive numbers. -/
theorem reachable_money_nonneg (hash : String → String) (ops : List Op) :
    moneyOk (run hash ops) := by
  unfold run
  refine foldl_step_preserves_moneyOk hash ops emptyStore ⟨?_, ?_, ?_, ?_⟩ <;>
    simp [emptyStore]

end ERP
